import Mathlib

/-!
Verification of the chat-orchestrator templates of the `agent-as-code`
repository.

The Python services are embedded shallowly:

* Python strings are Lean `String`s; `str.lower` is mapped over the
  underlying character list (`lowerStr`), `str.strip` is `pyStrip`,
  `str.split(',')` is `pySplit ','`, and the slice `l[-k:]` is
  `pyLastSlice k` (including the `k = 0` quirk where `l[-0:]` is the
  whole list).
* The in-memory conversation store (a Python dict) is an association
  list `List (String × List Turn)`.
* The LLM backends are abstracted by passing the reply they would
  produce (`llmReply`) as an argument; whether the backend is invoked
  at all is recorded in the outcome (`backendCalled`, `outbound`).
* FastAPI `HTTPException(status, detail)` is the `ApiResult.httpError`
  constructor / an `Except (Nat × String)` error value.
-/

/-- One chat turn: `ChatMessage(role, content)` of
`src/examples/basic-chatbot/main.py` and the `{"role": ..., "content": ...}`
dicts of the other templates. -/
structure Turn where
  role : String
  content : String
deriving DecidableEq

/-- Python `str.lower()` (ASCII view): lower-case every character. -/
def lowerStr (s : String) : String :=
  ⟨s.data.map Char.toLower⟩

/-- Helper for `pySplit`. -/
def pySplitAux (sep : Char) : List Char → List Char → List String
  | [], acc => [⟨acc.reverse⟩]
  | c :: rest, acc =>
      if c = sep then ⟨acc.reverse⟩ :: pySplitAux sep rest []
      else pySplitAux sep rest (c :: acc)

/-- Python `str.split(sep)` for a one-character separator: splits at every
occurrence, keeping empty pieces; `"".split(',') == ['']`. -/
def pySplit (sep : Char) (s : String) : List String :=
  pySplitAux sep s.data []

/-- Python `str.strip()`: drop whitespace from both ends. -/
def pyStrip (s : String) : String :=
  ⟨((s.data.dropWhile Char.isWhitespace).reverse.dropWhile Char.isWhitespace).reverse⟩

/-- Python `l[-k:]`: the whole list when `k = 0` (since `l[-0:]` is `l[0:]`),
otherwise the last `k` elements (all of `l` when `k ≥ len(l)`). -/
def pyLastSlice (k : Nat) (l : List α) : List α :=
  if k = 0 then l else l.drop (l.length - k)

/-- The escalation classifier shared by the templates:
`any(keyword.lower() in message.lower() for keyword in keywords)`
(`src/examples/basic-chatbot/main.py:102`,
`src/internal/templates/chatbot/main.py:75`).
Python `a in b` on strings is the substring test, embedded as
`List.IsInfix` on the character lists. -/
def classify (message : String) (keywords : List String) : Bool :=
  keywords.any fun kw => decide ((lowerStr kw).data <:+: (lowerStr message).data)

/-- `ESCALATION_KEYWORDS` parsing of `src/examples/basic-chatbot/main.py:25`:
`[kw.strip() for kw in s.split(',')]`. -/
def parseKeywordsBasic (s : String) : List String :=
  (pySplit ',' s).map pyStrip

/-- `escalation_keywords` parsing of
`src/internal/templates/chatbot/main.py:57`: `s.split(",")` (no strip). -/
def parseKeywordsInternal (s : String) : List String :=
  pySplit ',' s

/-- The default `ESCALATION_KEYWORDS` value
`"human,manager,supervisor,escalate"` after parsing. -/
def defaultEscalationKeywords : List String :=
  parseKeywordsBasic "human,manager,supervisor,escalate"

-- Shared helper: what `classify` decides.
theorem classify_eq_true_iff (message : String) (keywords : List String) :
    classify message keywords = true ↔
      ∃ kw ∈ keywords, (lowerStr kw).data <:+: (lowerStr message).data := by
  simp [classify]

theorem classify_nil (message : String) : classify message [] = false := rfl

/-- C1: `classify` returns `true` iff some keyword of the list is a
case-insensitive substring of the message, and it returns `false` on the
empty keyword list. -/
theorem classify_substring_iff (message : String) (keywords : List String) :
    (classify message keywords = true ↔
      ∃ kw ∈ keywords, (lowerStr kw).data <:+: (lowerStr message).data) ∧
    classify message [] = false :=
  ⟨classify_eq_true_iff message keywords, classify_nil message⟩

/-! ## The basic-chatbot `/chat` handler (`src/examples/basic-chatbot/main.py`) -/

/-- `SYSTEM_PROMPT` of `src/examples/basic-chatbot/main.py:57`. -/
def systemPromptBasic : String :=
  "You are a helpful customer support agent for a technology company. \nYou should be friendly, professional, and helpful. If you cannot help with something or \nthe customer explicitly asks for a human agent, politely acknowledge the request.\n\nGuidelines:\n- Be concise but thorough\n- Ask clarifying questions when needed\n- Provide step-by-step instructions when appropriate\n- Acknowledge when escalation to human agents is needed\n- Remember context from previous messages in the conversation\n"

/-- The system turn seeded into a new conversation (line 90). -/
def systemTurnBasic : Turn :=
  ⟨"system", systemPromptBasic⟩

/-- The canned escalation reply of line 105. -/
def escalationTextBasic : String :=
  "I understand you\x27d like to speak with a human agent. I\x27m connecting you with our support team now. Please hold on while I transfer your conversation."

/-- Line 89-90: `if not history: history.append(ChatMessage(role="system", ...))`. -/
def seedHistory (stored : List Turn) : List Turn :=
  if stored = [] then [systemTurnBasic] else stored

/-- Lines 96-97: `if len(history) > MAX_CONVERSATION_HISTORY + 1:
history = [history[0]] + history[-(MAX_CONVERSATION_HISTORY):]`. -/
def trimBasic (maxHistory : Nat) (h : List Turn) : List Turn :=
  if h.length > maxHistory + 1 then h.take 1 ++ pyLastSlice maxHistory h else h

/-- Observable outcome of one `POST /chat` call of the basic chatbot:
the `ChatResponse` fields that the claims mention, whether the OpenAI
backend was invoked (and with which `messages` payload), and the history
stored back into `conversation_history[conv_id]`. -/
structure BasicOutcome where
  response : String
  escalationTriggered : Bool
  backendCalled : Bool
  outbound : Option (List Turn)
  history : List Turn
deriving DecidableEq

/-- One `POST /chat` call of `src/examples/basic-chatbot/main.py:75-131`
for a given stored history of the conversation id. `llmReply` is the text
`openai.chat.completions.create` would return; it is used only on the
non-escalated branch. -/
def basicChat (maxHistory : Nat) (keywords : List String) (stored : List Turn)
    (message llmReply : String) : BasicOutcome :=
  let h1 := seedHistory stored
  let h2 := h1 ++ [⟨"user", message⟩]
  let h3 := trimBasic maxHistory h2
  let esc := classify message keywords
  let responseContent := if esc then escalationTextBasic else llmReply
  { response := responseContent
    escalationTriggered := esc
    backendCalled := !esc
    outbound := if esc then none else some h3
    history := h3 ++ [⟨"assistant", responseContent⟩] }

/-! ## The internal chatbot template (`src/internal/templates/chatbot/main.py`) -/

/-- The system message built per request at line 83. -/
def internalSystemTurn : Turn :=
  ⟨"system", "You are a helpful customer support assistant. Be friendly, professional, and helpful."⟩

/-- The canned escalation reply of lines 76-77. -/
def internalEscalationText : String :=
  "I understand you\x27d like to speak with a human representative. I\x27m transferring you to our support team. Please hold while I connect you."

/-- Lines 112-113: `if len(history.messages) > self.max_history * 2:
history.messages = history.messages[-self.max_history * 2:]`. -/
def internalTrim (maxHistory : Nat) (l : List Turn) : List Turn :=
  if l.length > maxHistory * 2 then pyLastSlice (maxHistory * 2) l else l

/-- Observable outcome of one `ChatbotAgent.process_message` call. -/
structure InternalOutcome where
  response : String
  outbound : Option (List Turn)
  messages : List Turn
deriving DecidableEq

/-- One `process_message` call of
`src/internal/templates/chatbot/main.py:59-119` on the stored
`history.messages` of the session. The stored history never contains the
system turn; it is prepended to the outbound payload only. -/
def internalProcess (maxHistory : Nat) (keywords : List String) (stored : List Turn)
    (message llmReply : String) : InternalOutcome :=
  let esc := classify message keywords
  let responseText := if esc then internalEscalationText else llmReply
  let outbound :=
    if esc then none
    else some ([internalSystemTurn] ++ pyLastSlice maxHistory stored ++ [⟨"user", message⟩])
  let newMessages :=
    internalTrim maxHistory (stored ++ [⟨"user", message⟩, ⟨"assistant", responseText⟩])
  { response := responseText, outbound := outbound, messages := newMessages }

/-! ## The provider template (`src/templates/chatbot/main.py`) -/

/-- `OpenAIClient` state after a successful construction (lines 58-61). -/
structure OpenAIClient where
  apiKey : String
  model : String
  baseUrl : String
deriving DecidableEq

/-- `OpenAIClient.__init__` (lines 58-64): stores key, model and base url,
then `if not self.api_key: raise ValueError(...)`. A missing environment
variable is `none`; Python treats both `None` and `""` as falsy. -/
def mkOpenAIClient (apiKey : Option String) (model : String) :
    Except String OpenAIClient :=
  match apiKey with
  | none => .error "OPENAI_API_KEY environment variable is required for OpenAI models"
  | some key =>
      if key = "" then
        .error "OPENAI_API_KEY environment variable is required for OpenAI models"
      else
        .ok ⟨key, model, "https://api.openai.com/v1"⟩

/-- The `messages` array `OpenAIClient.chat` sends (lines 72-79): only the
current user message, regardless of any conversation id — this client keeps
no history. -/
def openAIPayloadMessages (message : String) : List Turn :=
  [⟨"user", message⟩]

/-- Outbound payload of `OpenAIClient.chat(message, conversation_id)`
(lines 66-91): the `conversation_id` argument is ignored. -/
def templatesOpenAIChatOutbound (message : String) (conversationId : String) :
    List Turn :=
  openAIPayloadMessages message

/-- How one HTTP call to the Ollama generate endpoint went, as far as the
exception handling of `OllamaClient.chat` distinguishes outcomes. -/
inductive BackendOutcome where
  | success (text : String)
  | connectionRefused
  | otherFailure (emsg : String)
deriving DecidableEq

/-- `OllamaClient.chat` (lines 104-134): success returns the text;
`requests.exceptions.ConnectionError` raises `HTTPException(503, ...)`;
any other exception raises `HTTPException(500, ...)`. Errors are modelled
as `(status, detail)` pairs. -/
def ollamaChat : BackendOutcome → Except (Nat × String) String
  | .success text => .ok text
  | .connectionRefused =>
      .error (503, "Ollama is not running. Please start Ollama with \x27ollama serve\x27")
  | .otherFailure emsg =>
      .error (500, "Ollama API error: " ++ emsg)

/-- The `POST /chat` endpoint of `src/templates/chatbot/main.py:176-200`
around a client call result: `try: ... except Exception as e:
raise HTTPException(status_code=500, detail=str(e))`. A FastAPI
`HTTPException` raised by the client is itself an `Exception`, so it is
caught and re-wrapped; `str(HTTPException(s, d))` is `f"{s}: {d}"`. -/
def templatesChatEndpoint (clientResult : Except (Nat × String) String) :
    Except (Nat × String) String :=
  match clientResult with
  | .ok text => .ok text
  | .error (status, detail) => .error (500, toString status ++ ": " ++ detail)

/-- Observable outcome of one `POST /chat` call of the provider template. -/
structure TemplatesChatOutcome where
  response : Except (Nat × String) String
  backendCalled : Bool
  outbound : List Turn

/-- One `POST /chat` call of `src/templates/chatbot/main.py:176-200` with
the OpenAI provider. The handler has no escalation branch: it resolves the
conversation id and then calls `llm_client.chat(request.message, ...)` on
every request, so the backend is always invoked and the outbound payload
is always built. `clientResult` is how that backend call went. -/
def templatesChat (message : String) (conversationId : String)
    (clientResult : Except (Nat × String) String) : TemplatesChatOutcome :=
  { response := templatesChatEndpoint clientResult
    backendCalled := true
    outbound := templatesOpenAIChatOutbound message conversationId }

/-! ## Conversation endpoints of the basic chatbot -/

/-- Result of an endpoint call: a normal JSON reply or a raised
`HTTPException`. -/
inductive ApiResult (α : Type) where
  | ok (value : α)
  | httpError (status : Nat) (detail : String)
deriving DecidableEq

/-- Body of the `GET /conversations/{id}` reply (lines 141-145). -/
structure ConversationView where
  conversationId : String
  messages : List Turn
  messageCount : Nat
deriving DecidableEq

/-- `GET /conversations/{id}` (lines 137-145): the store (a Python dict,
embedded as an association list) is read with
`conversation_history.get(conversation_id, [])`; the reply always succeeds,
reporting the (possibly empty) message list and its length. -/
def getConversation (store : List (String × List Turn)) (conversationId : String) :
    ApiResult ConversationView :=
  let history := (store.lookup conversationId).getD []
  .ok ⟨conversationId, history, history.length⟩

/-- `DELETE /conversations/{id}` (lines 147-155): delete and confirm when
the id is present, otherwise `HTTPException(404, "Conversation not found")`.
Returns the reply together with the updated store. -/
def clearConversation (store : List (String × List Turn)) (conversationId : String) :
    ApiResult String × List (String × List Turn) :=
  if (store.lookup conversationId).isSome then
    (.ok ("Conversation " ++ conversationId ++ " cleared"),
     store.filter fun p => p.1 != conversationId)
  else
    (.httpError 404 "Conversation not found", store)

/-! ## Lemmas about the trim policies -/

theorem trimBasic_length_le (maxHistory : Nat) (hmax : 1 ≤ maxHistory) (h : List Turn) :
    (trimBasic maxHistory h).length ≤ maxHistory + 1 := by
  unfold trimBasic pyLastSlice
  split
  · rw [if_neg (by omega)]
    simp only [List.length_append, List.length_take, List.length_drop]
    omega
  · omega

theorem internalTrim_length_le (maxHistory : Nat) (hmax : 1 ≤ maxHistory) (l : List Turn) :
    (internalTrim maxHistory l).length ≤ maxHistory * 2 := by
  unfold internalTrim pyLastSlice
  split
  · rw [if_neg (by omega)]
    simp only [List.length_drop]
    omega
  · omega

theorem trimBasic_cons (maxHistory : Nat) (t : Turn) (l : List Turn) :
    ∃ l2, trimBasic maxHistory (t :: l) = t :: l2 := by
  unfold trimBasic
  split
  · exact ⟨pyLastSlice maxHistory (t :: l), by simp⟩
  · exact ⟨l, rfl⟩

theorem trimBasic_getLast? (maxHistory : Nat) (l : List Turn) (hl : l ≠ []) :
    (trimBasic maxHistory l).getLast? = l.getLast? := by
  unfold trimBasic pyLastSlice
  split
  · rename_i hlen
    split
    · exact List.getLast?_append_of_ne_nil _ hl
    · rename_i hk
      have hne : l.drop (l.length - maxHistory) ≠ [] := by
        have : (l.drop (l.length - maxHistory)).length = l.length - (l.length - maxHistory) := by
          simp
        intro hcontr
        rw [hcontr] at this
        simp at this
        omega
      rw [List.getLast?_append_of_ne_nil _ hne]
      have hdec : l.length - maxHistory ≤ l.length := by omega
      conv_rhs => rw [← List.take_append_drop (l.length - maxHistory) l]
      rw [List.getLast?_append_of_ne_nil _ hne]
  · rfl

/-! ## Claim theorems -/

/-- C2 counterexample: with `max_history = 0` the basic chatbot stores 4
turns after a single message on a fresh conversation (the trim slice
`history[-0:]` is the whole list, so trimming duplicates the head instead
of shrinking), violating the claimed bound `2 * max_history + 1 = 1`. -/
theorem history_bound_counterexample :
    (basicChat 0 [] [] "hi" "ok").history.length = 4 ∧
    ¬ ((basicChat 0 [] [] "hi" "ok").history.length ≤ 2 * 0 + 1) := by
  decide

/-- C2 (amended: for `max_history ≥ 1`): after any processed chat message,
the stored history of the basic chatbot and of the internal chatbot
template has at most `2 * max_history + 1` turns, whatever history the
session had before the call. -/
theorem history_length_bounded (maxHistory : Nat) (keywords : List String)
    (stored : List Turn) (message llmReply : String) (hmax : 1 ≤ maxHistory) :
    (basicChat maxHistory keywords stored message llmReply).history.length ≤
      2 * maxHistory + 1 ∧
    (internalProcess maxHistory keywords stored message llmReply).messages.length ≤
      2 * maxHistory + 1 := by
  constructor
  · have hb := trimBasic_length_le maxHistory hmax
      (seedHistory stored ++ [⟨"user", message⟩])
    simp only [basicChat, List.length_append, List.length_cons, List.length_nil]
    omega
  · have hi := internalTrim_length_le maxHistory hmax
      (stored ++ [⟨"user", message⟩,
        ⟨"assistant", if classify message keywords then internalEscalationText else llmReply⟩])
    simp only [internalProcess]
    omega

/-- Witness for `history_length_bounded` at `max_history = 10`. -/
theorem history_length_bounded_witness :
    1 ≤ 10 ∧
    ((basicChat 10 [] [] "hi" "ok").history.length ≤ 2 * 10 + 1 ∧
     (internalProcess 10 [] [] "hi" "ok").messages.length ≤ 2 * 10 + 1) :=
  ⟨by decide, history_length_bounded 10 [] [] "hi" "ok" (by decide)⟩

/-- C3 counterexample: the provider template's `/chat`
(`src/templates/chatbot/main.py:176-200`) has no escalation handling: on
the message "I want to talk to a manager" it still invokes the completion
backend with that single user turn, and its reply is whatever the backend
returned, not the fixed escalation text (and the response carries no
`escalation_triggered` field at all). -/
theorem templates_chat_no_escalation :
    (templatesChat "I want to talk to a manager" "c1" (.ok "backend reply")).backendCalled =
      true ∧
    (templatesChat "I want to talk to a manager" "c1" (.ok "backend reply")).outbound =
      [⟨"user", "I want to talk to a manager"⟩] ∧
    (templatesChat "I want to talk to a manager" "c1" (.ok "backend reply")).response =
      .ok "backend reply" :=
  ⟨rfl, rfl, rfl⟩

/-- C3 (amended: for the basic chatbot; the provider template of
`src/templates/chatbot` has no escalation path and always invokes the
backend): when the message contains a default escalation keyword
(case-insensitively), the basic chatbot replies with the fixed escalation
text, sets `escalation_triggered`, and never invokes the completion
backend (no outbound request is built). -/
theorem escalation_shortcircuits (maxHistory : Nat) (stored : List Turn)
    (message llmReply : String)
    (hkw : ∃ kw ∈ defaultEscalationKeywords,
      (lowerStr kw).data <:+: (lowerStr message).data) :
    (basicChat maxHistory defaultEscalationKeywords stored message llmReply).response =
      escalationTextBasic ∧
    (basicChat maxHistory defaultEscalationKeywords stored message llmReply).escalationTriggered =
      true ∧
    (basicChat maxHistory defaultEscalationKeywords stored message llmReply).backendCalled =
      false ∧
    (basicChat maxHistory defaultEscalationKeywords stored message llmReply).outbound =
      none := by
  have hc : classify message defaultEscalationKeywords = true :=
    (classify_eq_true_iff message defaultEscalationKeywords).mpr hkw
  simp [basicChat, hc]

/-- Witness for `escalation_shortcircuits` on
`"I want to talk to a manager"`. -/
theorem escalation_shortcircuits_witness :
    (∃ kw ∈ defaultEscalationKeywords,
      (lowerStr kw).data <:+: (lowerStr "I want to talk to a manager").data) ∧
    ((basicChat 10 defaultEscalationKeywords [] "I want to talk to a manager" "r").response =
        escalationTextBasic ∧
      (basicChat 10 defaultEscalationKeywords [] "I want to talk to a manager" "r").escalationTriggered =
        true ∧
      (basicChat 10 defaultEscalationKeywords [] "I want to talk to a manager" "r").backendCalled =
        false ∧
      (basicChat 10 defaultEscalationKeywords [] "I want to talk to a manager" "r").outbound =
        none) :=
  ⟨by decide, escalation_shortcircuits 10 [] "I want to talk to a manager" "r" (by decide)⟩

/-- C4 counterexample: `GET /conversations/{id}` on an unknown id does not
yield a not-found outcome — it answers normally with an empty message list
and count 0. -/
theorem getConversation_unknown_not_404 :
    getConversation [] "missing" = .ok ⟨"missing", [], 0⟩ ∧
    getConversation ([] : List (String × List Turn)) "missing" ≠
      .httpError 404 "Conversation not found" := by
  refine ⟨rfl, ?_⟩
  decide

/-- C4 (amended): `DELETE /conversations/{id}` on an unknown id yields the
404 outcome; `GET /conversations/{id}` never fails: on an unknown id it
returns an empty conversation with count 0, and on a known id it returns
the stored messages and their count. -/
theorem conversation_endpoints_spec (store : List (String × List Turn))
    (conversationId : String) :
    (store.lookup conversationId = none →
      getConversation store conversationId = .ok ⟨conversationId, [], 0⟩ ∧
      (clearConversation store conversationId).1 =
        .httpError 404 "Conversation not found") ∧
    (∀ h, store.lookup conversationId = some h →
      getConversation store conversationId = .ok ⟨conversationId, h, h.length⟩ ∧
      (clearConversation store conversationId).1 =
        .ok ("Conversation " ++ conversationId ++ " cleared")) := by
  constructor
  · intro hnone
    constructor
    · simp [getConversation, hnone]
    · simp [clearConversation, hnone]
  · intro h hsome
    constructor
    · simp [getConversation, hsome]
    · simp [clearConversation, hsome]

/-- Witness for `conversation_endpoints_spec` on a one-entry store. -/
theorem conversation_endpoints_spec_witness :
    (clearConversation [("a", [⟨"user", "hi"⟩])] "b").1 =
      .httpError 404 "Conversation not found" ∧
    getConversation [("a", [⟨"user", "hi"⟩])] "a" =
      .ok ⟨"a", [⟨"user", "hi"⟩], 1⟩ :=
  ⟨((conversation_endpoints_spec [("a", [⟨"user", "hi"⟩])] "b").1 (by decide)).2,
   ((conversation_endpoints_spec [("a", [⟨"user", "hi"⟩])] "a").2 [⟨"user", "hi"⟩] (by decide)).1⟩

/-- C5: a session whose first stored turn is the fixed system prompt keeps
that system turn as its first turn across a full `/chat` step (append user,
trim, append assistant). -/
theorem system_turn_preserved (maxHistory : Nat) (keywords : List String)
    (stored : List Turn) (message llmReply : String)
    (hhead : stored.head? = some systemTurnBasic) :
    (basicChat maxHistory keywords stored message llmReply).history.head? =
      some systemTurnBasic := by
  obtain ⟨t, rest, rfl⟩ : ∃ t rest, stored = t :: rest := by
    cases stored with
    | nil => simp at hhead
    | cons a l => exact ⟨a, l, rfl⟩
  have ht : t = systemTurnBasic := by simpa using hhead
  subst ht
  have hseed : seedHistory (systemTurnBasic :: rest) = systemTurnBasic :: rest := by
    simp [seedHistory]
  obtain ⟨l2, hl2⟩ :=
    trimBasic_cons maxHistory systemTurnBasic (rest ++ [⟨"user", message⟩])
  simp [basicChat, hseed, hl2]

/-- Witness for `system_turn_preserved` on a fresh seeded session. -/
theorem system_turn_preserved_witness :
    ([systemTurnBasic].head? = some systemTurnBasic) ∧
    (basicChat 10 [] [systemTurnBasic] "hi" "ok").history.head? =
      some systemTurnBasic :=
  ⟨rfl, system_turn_preserved 10 [] [systemTurnBasic] "hi" "ok" rfl⟩

/-- C6 counterexample: in the provider template, the second call with the
same conversation id sends only the new user turn to the backend — the
first exchange is not included, because `OpenAIClient.chat` keeps no
history and ignores the conversation id. -/
theorem templates_outbound_drops_history :
    templatesOpenAIChatOutbound "thanks" "c1" = [⟨"user", "thanks"⟩] ∧
    (⟨"user", "hello"⟩ : Turn) ∉ templatesOpenAIChatOutbound "thanks" "c1" ∧
    (⟨"assistant", "r1"⟩ : Turn) ∉ templatesOpenAIChatOutbound "thanks" "c1" := by
  decide

/-- C6 (amended: for the basic chatbot, with `max_history ≥ 3`): after a
first non-escalating exchange on a fresh conversation, the second
non-escalating call sends the system turn, both turns of the first
exchange and the new user turn to the backend, in chronological order. -/
theorem second_call_outbound_has_full_history (maxHistory : Nat)
    (keywords : List String) (msg1 reply1 msg2 reply2 : String)
    (hmax : 3 ≤ maxHistory)
    (h1 : classify msg1 keywords = false)
    (h2 : classify msg2 keywords = false) :
    (basicChat maxHistory keywords
        (basicChat maxHistory keywords [] msg1 reply1).history msg2 reply2).outbound =
      some [systemTurnBasic, ⟨"user", msg1⟩, ⟨"assistant", reply1⟩, ⟨"user", msg2⟩] := by
  have hist1 : (basicChat maxHistory keywords [] msg1 reply1).history =
      [systemTurnBasic, ⟨"user", msg1⟩, ⟨"assistant", reply1⟩] := by
    have htrim : trimBasic maxHistory [systemTurnBasic, ⟨"user", msg1⟩] =
        [systemTurnBasic, ⟨"user", msg1⟩] := by
      unfold trimBasic
      rw [if_neg (by simp; omega)]
    simp [basicChat, seedHistory, htrim, h1]
  rw [hist1]
  have htrim2 : trimBasic maxHistory
      [systemTurnBasic, ⟨"user", msg1⟩, ⟨"assistant", reply1⟩, ⟨"user", msg2⟩] =
      [systemTurnBasic, ⟨"user", msg1⟩, ⟨"assistant", reply1⟩, ⟨"user", msg2⟩] := by
    unfold trimBasic
    rw [if_neg (by simp; omega)]
  simp [basicChat, seedHistory, htrim2, h2]

/-- Witness for `second_call_outbound_has_full_history` with the default
keywords and two non-escalating messages. -/
theorem second_call_outbound_witness :
    (3 ≤ 10 ∧
      classify "hello" defaultEscalationKeywords = false ∧
      classify "thanks" defaultEscalationKeywords = false) ∧
    (basicChat 10 defaultEscalationKeywords
        (basicChat 10 defaultEscalationKeywords [] "hello" "r1").history
        "thanks" "r2").outbound =
      some [systemTurnBasic, ⟨"user", "hello"⟩, ⟨"assistant", "r1"⟩, ⟨"user", "thanks"⟩] :=
  ⟨⟨by decide, by decide, by decide⟩,
   second_call_outbound_has_full_history 10 defaultEscalationKeywords
     "hello" "r1" "thanks" "r2" (by decide) (by decide) (by decide)⟩

/-- C7: `OllamaClient.chat` classifies a refused connection as a distinct
503 error (other failures give 500), but the `/chat` endpoint catch-all
re-wraps every raised `HTTPException` as a 500 whose detail merely embeds
the original status, so at the HTTP surface the refused connection is not
distinguishable by status from a generic upstream failure. -/
theorem ollama_connection_refusal_surfaces :
    ollamaChat .connectionRefused =
      .error (503, "Ollama is not running. Please start Ollama with \x27ollama serve\x27") ∧
    ollamaChat (.otherFailure "boom") =
      .error (500, "Ollama API error: boom") ∧
    templatesChatEndpoint (ollamaChat .connectionRefused) =
      .error (500, "503: Ollama is not running. Please start Ollama with \x27ollama serve\x27") ∧
    templatesChatEndpoint (ollamaChat (.otherFailure "boom")) =
      .error (500, "500: Ollama API error: boom") :=
  ⟨rfl, rfl, rfl, rfl⟩

/-- C8: constructing the hosted OpenAI client fails fast with the
configuration error on a missing or empty credential, and succeeds on any
non-empty credential. -/
theorem openAIClient_requires_credential (model : String) :
    mkOpenAIClient none model =
      .error "OPENAI_API_KEY environment variable is required for OpenAI models" ∧
    mkOpenAIClient (some "") model =
      .error "OPENAI_API_KEY environment variable is required for OpenAI models" ∧
    ∀ key : String, key ≠ "" →
      mkOpenAIClient (some key) model = .ok ⟨key, model, "https://api.openai.com/v1"⟩ := by
  refine ⟨rfl, rfl, fun key hk => ?_⟩
  simp [mkOpenAIClient, hk]

/-- Witness for `openAIClient_requires_credential` with a non-empty key. -/
theorem openAIClient_requires_credential_witness :
    ("sk-test" ≠ "") ∧
    mkOpenAIClient (some "sk-test") "gpt-4" =
      .ok ⟨"sk-test", "gpt-4", "https://api.openai.com/v1"⟩ :=
  ⟨by decide,
   (openAIClient_requires_credential "gpt-4").2.2 "sk-test" (by decide)⟩

/-- C9: an empty `ESCALATION_KEYWORDS` configuration string parses, in both
templates, to the one-element list `[""]`; the empty keyword is a substring
of every message, so the classifier then escalates every request. -/
theorem empty_keyword_config_escalates_everything :
    parseKeywordsBasic "" = [""] ∧
    parseKeywordsInternal "" = [""] ∧
    ∀ message : String, classify message [""] = true := by
  refine ⟨by decide, by decide, fun message => ?_⟩
  have h0 : (lowerStr "").data = ([] : List Char) := by decide
  simp [classify, h0, List.nil_infix]

/-- C10: an escalated request mutates the session history exactly as the
normal path would had the backend returned the canned text: in both
templates the stored history equals the non-escalated outcome with the
canned reply, and for the basic chatbot it ends with the user turn
followed by the canned assistant turn (trim applied in between). -/
theorem escalated_history_mutation (maxHistory : Nat) (keywords : List String)
    (stored : List Turn) (message llmReply : String)
    (hesc : classify message keywords = true) :
    (basicChat maxHistory keywords stored message llmReply).history =
      (basicChat maxHistory [] stored message escalationTextBasic).history ∧
    (basicChat maxHistory keywords stored message llmReply).history.getLast? =
      some ⟨"assistant", escalationTextBasic⟩ ∧
    (basicChat maxHistory keywords stored message llmReply).history.dropLast.getLast? =
      some ⟨"user", message⟩ ∧
    (internalProcess maxHistory keywords stored message llmReply).messages =
      (internalProcess maxHistory [] stored message internalEscalationText).messages := by
  have hnil : classify message [] = false := classify_nil message
  refine ⟨?_, ?_, ?_, ?_⟩
  · simp [basicChat, hesc, hnil]
  · simp [basicChat, hesc, List.getLast?_concat]
  · have hlast : (seedHistory stored ++ [(⟨"user", message⟩ : Turn)]).getLast? =
        some ⟨"user", message⟩ := List.getLast?_concat _
    have htr := trimBasic_getLast? maxHistory
      (seedHistory stored ++ [(⟨"user", message⟩ : Turn)]) (by simp)
    simp [basicChat, hesc, List.dropLast_concat, htr, hlast]
  · simp [internalProcess, hesc, hnil]

/-- Witness for `escalated_history_mutation` on `"I need a human"`. -/
theorem escalated_history_mutation_witness :
    classify "I need a human" defaultEscalationKeywords = true ∧
    ((basicChat 10 defaultEscalationKeywords [] "I need a human" "r").history =
        (basicChat 10 [] [] "I need a human" escalationTextBasic).history ∧
      (basicChat 10 defaultEscalationKeywords [] "I need a human" "r").history.getLast? =
        some ⟨"assistant", escalationTextBasic⟩ ∧
      (basicChat 10 defaultEscalationKeywords [] "I need a human" "r").history.dropLast.getLast? =
        some ⟨"user", "I need a human"⟩ ∧
      (internalProcess 10 defaultEscalationKeywords [] "I need a human" "r").messages =
        (internalProcess 10 [] [] "I need a human" internalEscalationText).messages) :=
  ⟨by decide,
   escalated_history_mutation 10 defaultEscalationKeywords [] "I need a human" "r" (by decide)⟩
